import Mathlib

/-!
Verification of the EchoID consent-management core: a shallow embedding of
the execution-mode router (simulated vs live chain dispatch), the consent
lifecycle state machine driven by the UnlockBar component, the handshake
orchestration in the consent wizard, the coercion risk estimator, the
test-mode selector, and the HD-wallet derivation plumbing. External
collaborators (the wallet-signing transport, the secure key-value store,
the sha3 / keccak primitives and the BIP-39 library) are modelled as
explicit function parameters; everything else is translated directly from
the TypeScript sources.
-/

namespace EchoID

/-! JavaScript-style string helpers used throughout the sources. -/

/-- The character-wise lowercasing performed by `String.prototype.toLowerCase`
(ASCII range, which is all the sources ever feed it). -/
def jsToLower (s : String) : String :=
  String.mk (s.toList.map Char.toLower)

/-- The whitespace stripping performed by `String.prototype.trim`. -/
def jsTrim (s : String) : String :=
  String.mk (((s.toList.dropWhile Char.isWhitespace).reverse.dropWhile Char.isWhitespace).reverse)

/-- Byte view of an ASCII string, as produced by `Buffer.from(str)`. -/
def asciiBytes (s : String) : List Nat :=
  s.toList.map Char.toNat

/-! Hex decoding, as performed by `Buffer.from(str, 'hex')`: consecutive
pairs of hex digits are decoded, and decoding stops at the first invalid
pair (a trailing unpaired digit is dropped). -/

/-- Value of a single hexadecimal digit character, if it is one. -/
def hexDigitVal (c : Char) : Option Nat :=
  if 48 ≤ c.toNat ∧ c.toNat ≤ 57 then some (c.toNat - 48)
  else if 97 ≤ c.toNat ∧ c.toNat ≤ 102 then some (c.toNat - 87)
  else if 65 ≤ c.toNat ∧ c.toNat ≤ 70 then some (c.toNat - 55)
  else none

/-- Decode a character list as hex pairs, Node `Buffer.from(-, 'hex')` style. -/
def hexPairs : List Char → List Nat
  | ch1 :: ch2 :: rest =>
    match hexDigitVal ch1, hexDigitVal ch2 with
    | some hi, some lo => (16 * hi + lo) :: hexPairs rest
    | _, _ => []
  | _ => []

/-- Big-endian numeric value of a byte list, as computed by
`BigInt('0x' + buf.toString('hex'))`. -/
def beNat (bs : List Nat) : Nat :=
  bs.foldl (fun acc b => acc * 256 + b) 0

/-- Lowercase hex digit character for a value below 16. -/
def hexDigitChar (n : Nat) : Char :=
  if n < 10 then Char.ofNat (48 + n) else Char.ofNat (87 + n)

/-- Two-digit lowercase hex rendering of a byte, as produced by
`b.toString(16).padStart(2, '0')` for byte values. -/
def byteToHex2 (n : Nat) : String :=
  String.mk [hexDigitChar ((n % 256) / 16), hexDigitChar (n % 16)]

/-- Hex string of a byte list, as produced by `buf.toString('hex')`. -/
def bytesToHexStr (bs : List Nat) : String :=
  String.join (bs.map byteToHex2)

/-! Arithmetic facts about the helpers, used for the simulated-mint
determinism claim. -/

theorem beNat_foldl (xs : List Nat) : ∀ (a : Nat),
    List.foldl (fun acc b => acc * 256 + b) a xs = a * 256 ^ xs.length + beNat xs := by
  induction xs with
  | nil => intro a; simp [beNat]
  | cons x xs ih =>
    intro a
    simp only [List.foldl_cons, List.length_cons, beNat]
    rw [ih (a * 256 + x), ih (0 * 256 + x)]
    ring

theorem beNat_cons (x : Nat) (xs : List Nat) :
    beNat (x :: xs) = x * 256 ^ xs.length + beNat xs := by
  have h := beNat_foldl xs (0 * 256 + x)
  simpa [beNat] using h

theorem beNat_lt (xs : List Nat) (h : ∀ b ∈ xs, b < 256) :
    beNat xs < 256 ^ xs.length := by
  induction xs with
  | nil => simp [beNat]
  | cons x xs ih =>
    have hx : x < 256 := h x (List.mem_cons_self x xs)
    have hxs : beNat xs < 256 ^ xs.length :=
      ih (fun b hb => h b (List.mem_cons_of_mem x hb))
    rw [beNat_cons, List.length_cons]
    calc x * 256 ^ xs.length + beNat xs
        < x * 256 ^ xs.length + 256 ^ xs.length := Nat.add_lt_add_left hxs _
      _ = (x + 1) * 256 ^ xs.length := by ring
      _ ≤ 256 * 256 ^ xs.length := Nat.mul_le_mul hx (le_refl _)
      _ = 256 ^ (xs.length + 1) := by rw [pow_succ, Nat.mul_comm]

theorem beNat_inj (xs : List Nat) : ∀ (ys : List Nat), xs.length = ys.length →
    (∀ b ∈ xs, b < 256) → (∀ b ∈ ys, b < 256) → beNat xs = beNat ys → xs = ys := by
  induction xs with
  | nil =>
    intro ys hlen _ _ _
    cases ys with
    | nil => rfl
    | cons y ys => simp at hlen
  | cons x xs ih =>
    intro ys hlen hx hy heq
    cases ys with
    | nil => simp at hlen
    | cons y ys =>
      simp only [List.length_cons, Nat.add_right_cancel_iff] at hlen
      rw [beNat_cons, beNat_cons, hlen] at heq
      have hbx : beNat xs < 256 ^ ys.length := by
        rw [← hlen]
        exact beNat_lt xs (fun b hb => hx b (List.mem_cons_of_mem x hb))
      have hby : beNat ys < 256 ^ ys.length :=
        beNat_lt ys (fun b hb => hy b (List.mem_cons_of_mem y hb))
      have hxy : x = y := by
        by_contra hne
        rcases Nat.lt_or_ge x y with hlt | hge
        · have hstep : x * 256 ^ ys.length + beNat xs < y * 256 ^ ys.length + beNat ys := by
            calc x * 256 ^ ys.length + beNat xs
                < x * 256 ^ ys.length + 256 ^ ys.length := Nat.add_lt_add_left hbx _
              _ = (x + 1) * 256 ^ ys.length := by ring
              _ ≤ y * 256 ^ ys.length := Nat.mul_le_mul hlt (le_refl _)
              _ ≤ y * 256 ^ ys.length + beNat ys := Nat.le_add_right _ _
          omega
        · have hlt : y < x := Nat.lt_of_le_of_ne hge (fun hyx => hne hyx.symm)
          have hstep : y * 256 ^ ys.length + beNat ys < x * 256 ^ ys.length + beNat xs := by
            calc y * 256 ^ ys.length + beNat ys
                < y * 256 ^ ys.length + 256 ^ ys.length := Nat.add_lt_add_left hby _
              _ = (y + 1) * 256 ^ ys.length := by ring
              _ ≤ x * 256 ^ ys.length := Nat.mul_le_mul hlt (le_refl _)
              _ ≤ x * 256 ^ ys.length + beNat xs := Nat.le_add_right _ _
          omega
      subst hxy
      have htail : beNat xs = beNat ys := Nat.add_left_cancel heq
      rw [ih ys hlen (fun b hb => hx b (List.mem_cons_of_mem x hb))
        (fun b hb => hy b (List.mem_cons_of_mem x hb)) htail]

theorem hexDigitVal_lt (c : Char) (v : Nat) (h : hexDigitVal c = some v) : v < 16 := by
  unfold hexDigitVal at h
  split_ifs at h <;> simp only [Option.some.injEq] at h <;> omega

theorem hexPairs_lt : ∀ (cs : List Char) (b : Nat), b ∈ hexPairs cs → b < 256
  | [], b, hb => by simp [hexPairs] at hb
  | [_], b, hb => by simp [hexPairs] at hb
  | c1 :: c2 :: rest, b, hb => by
    rw [hexPairs] at hb
    cases h1 : hexDigitVal c1 with
    | none => rw [h1] at hb; simp at hb
    | some v1 =>
      cases h2 : hexDigitVal c2 with
      | none => rw [h1, h2] at hb; simp at hb
      | some v2 =>
        rw [h1, h2] at hb
        simp only [List.mem_cons] at hb
        rcases hb with hb | hb
        · have hv1 := hexDigitVal_lt c1 v1 h1
          have hv2 := hexDigitVal_lt c2 v2 h2
          omega
        · exact hexPairs_lt rest b hb

/-! Coercion risk estimator, translated from `analyzeCoercion` in the
audio-analysis module. JavaScript numbers are modelled as rationals. -/

structure CoercionFeatures where
  speechRate : ℚ
  pauseCount : ℚ
  pauseDuration : ℚ
  jitter : ℚ
  volumeVariation : ℚ
deriving DecidableEq

inductive CoercionLevel where
  | green
  | amber
  | red
deriving DecidableEq

structure CoercionResult where
  level : CoercionLevel
  score : ℚ
  features : CoercionFeatures
  warnings : List String
deriving DecidableEq

/-- The sequential score accumulation of `analyzeCoercion`: start at 0 and
add a fixed penalty at each crossed threshold, in source order. -/
def coercionScoreSeq (f : CoercionFeatures) : ℚ :=
  let s1 : ℚ := if f.speechRate > 180 then 0 + 20 else 0
  let s2 := if f.speechRate < 80 then s1 + 15 else s1
  let s3 := if f.pauseCount > 10 then s2 + 15 else s2
  let s4 := if f.pauseDuration > 2000 then s3 + 20 else s3
  let s5 := if f.jitter > 3/10 then s4 + 25 else s4
  if f.volumeVariation > 2/5 then s5 + 15 else s5

/-- The warning accumulation of `analyzeCoercion`, one push per crossed
threshold, in source order. -/
def coercionWarningsSeq (f : CoercionFeatures) : List String :=
  let w1 : List String := if f.speechRate > 180 then ["Speech rate is unusually fast"] else []
  let w2 := if f.speechRate < 80 then w1 ++ ["Speech rate is unusually slow"] else w1
  let w3 := if f.pauseCount > 10 then w2 ++ ["Multiple pauses detected"] else w2
  let w4 := if f.pauseDuration > 2000 then w3 ++ ["Long pauses detected"] else w3
  let w5 := if f.jitter > 3/10 then w4 ++ ["Voice jitter suggests stress or nervousness"] else w4
  if f.volumeVariation > 2/5 then w5 ++ ["Inconsistent volume detected"] else w5

/-- The heuristic scorer `analyzeCoercion`: six threshold checks, each
adding a fixed penalty and a warning, then a band from the total and a
`Math.min(100, score)` clamp on the reported score. -/
def analyzeCoercion (f : CoercionFeatures) : CoercionResult :=
  let score := coercionScoreSeq f
  let level := if score ≥ 60 then CoercionLevel.red
    else if score ≥ 30 then CoercionLevel.amber
    else CoercionLevel.green
  { level := level, score := min 100 score, features := f,
    warnings := coercionWarningsSeq f }

/-- The additive score of `analyzeCoercion` written as a flat sum of the
six per-threshold penalties. -/
def coercionRawScore (f : CoercionFeatures) : ℚ :=
  (if f.speechRate > 180 then (20 : ℚ) else 0)
  + (if f.speechRate < 80 then 15 else 0)
  + (if f.pauseCount > 10 then 15 else 0)
  + (if f.pauseDuration > 2000 then 20 else 0)
  + (if f.jitter > 3/10 then 25 else 0)
  + (if f.volumeVariation > 2/5 then 15 else 0)

set_option maxHeartbeats 1600000 in
theorem coercionScoreSeq_eq_raw (f : CoercionFeatures) :
    coercionScoreSeq f = coercionRawScore f := by
  unfold coercionScoreSeq coercionRawScore
  split_ifs <;> norm_num

theorem analyzeCoercion_score (f : CoercionFeatures) :
    (analyzeCoercion f).score = min 100 (coercionRawScore f) := by
  show min 100 (coercionScoreSeq f) = min 100 (coercionRawScore f)
  rw [coercionScoreSeq_eq_raw]

theorem analyzeCoercion_level_eq (f : CoercionFeatures) :
    (analyzeCoercion f).level =
      (if 60 ≤ coercionRawScore f then CoercionLevel.red
        else if 30 ≤ coercionRawScore f then CoercionLevel.amber
        else CoercionLevel.green) := by
  show (if coercionScoreSeq f ≥ 60 then CoercionLevel.red
      else if coercionScoreSeq f ≥ 30 then CoercionLevel.amber
      else CoercionLevel.green) = _
  rw [coercionScoreSeq_eq_raw]

theorem coercionRawScore_nonneg (f : CoercionFeatures) : 0 ≤ coercionRawScore f := by
  unfold coercionRawScore
  split_ifs <;> norm_num

theorem coercionRawScore_le (f : CoercionFeatures) : coercionRawScore f ≤ 95 := by
  unfold coercionRawScore
  split_ifs <;> linarith

/-! Test-mode selector, translated from `isTestMode` in the test-mode
configuration module. The secure-store read and `JSON.parse` are external
collaborators, modelled as the outcome of the read and a parse function;
a thrown read or parse lands in the catch-all, which returns false. -/

inductive JsonValue where
  | boolVal (b : Bool)
  | otherVal
deriving DecidableEq

/-- The persisted-flag reader `isTestMode`: absent value defaults to true,
a stored value is `JSON.parse`d and compared to `true` with triple-equals,
and any thrown error (read or parse) is caught and yields false. -/
def isTestMode (stored : Except String (Option String))
    (jsonParse : String → Except String JsonValue) : Bool :=
  match stored with
  | Except.error _ => false
  | Except.ok none => true
  | Except.ok (some v) =>
    match jsonParse v with
    | Except.error _ => false
    | Except.ok j => j == JsonValue.boolVal true

/-- Claim C10: the mode selector returns true when the persisted flag is
absent, but returns false — selecting the live path — whenever reading the
flag from secure storage throws, even though the flag was never set. -/
theorem isTestMode_spec (jsonParse : String → Except String JsonValue) (e : String) :
    isTestMode (Except.ok none) jsonParse = true
    ∧ isTestMode (Except.error e) jsonParse = false :=
  ⟨rfl, rfl⟩

/-- Claim C8: the coercion analyzer scores additively with the documented
per-threshold penalties, clamps the reported score to the 0..100 range,
bands red at 60 and above, amber from 30 below 60, green below 30; a
feature set crossing no threshold (speech rate within the 80..180 band,
and each remaining feature at or below its trigger threshold) scores 0 and
bands green, and a feature set exceeding all simultaneously satisfiable
thresholds scores 95, hence at least 60, and bands red. -/
theorem analyzeCoercion_spec (f : CoercionFeatures) :
    (analyzeCoercion f).score = min 100 (coercionRawScore f)
    ∧ 0 ≤ (analyzeCoercion f).score
    ∧ (analyzeCoercion f).score ≤ 100
    ∧ ((analyzeCoercion f).level = CoercionLevel.red ↔ 60 ≤ (analyzeCoercion f).score)
    ∧ ((analyzeCoercion f).level = CoercionLevel.amber ↔
        30 ≤ (analyzeCoercion f).score ∧ (analyzeCoercion f).score < 60)
    ∧ ((analyzeCoercion f).level = CoercionLevel.green ↔ (analyzeCoercion f).score < 30)
    ∧ (80 ≤ f.speechRate → f.speechRate ≤ 180 → f.pauseCount ≤ 10 → f.pauseDuration ≤ 2000 →
        f.jitter ≤ 3/10 → f.volumeVariation ≤ 2/5 →
        (analyzeCoercion f).score = 0 ∧ (analyzeCoercion f).level = CoercionLevel.green)
    ∧ (f.speechRate > 180 → f.pauseCount > 10 → f.pauseDuration > 2000 →
        f.jitter > 3/10 → f.volumeVariation > 2/5 →
        60 ≤ (analyzeCoercion f).score ∧ (analyzeCoercion f).level = CoercionLevel.red) := by
  have hraw0 := coercionRawScore_nonneg f
  have hraw95 := coercionRawScore_le f
  have hscore := analyzeCoercion_score f
  have hlevel := analyzeCoercion_level_eq f
  have hmin : min (100 : ℚ) (coercionRawScore f) = coercionRawScore f :=
    min_eq_right (by linarith)
  have hscoreraw : (analyzeCoercion f).score = coercionRawScore f := by
    rw [hscore, hmin]
  refine ⟨hscore, by rw [hscoreraw]; exact hraw0, by rw [hscoreraw]; linarith, ?_, ?_, ?_, ?_, ?_⟩
  · rw [hscoreraw, hlevel]
    split_ifs with h1 h2
    · simpa using h1
    · constructor
      · intro h; simp at h
      · intro h; exact absurd h h1
    · constructor
      · intro h; simp at h
      · intro h; exact absurd h h1
  · rw [hscoreraw, hlevel]
    split_ifs with h1 h2
    · constructor
      · intro h; simp at h
      · rintro ⟨_, hB⟩; linarith
    · constructor
      · intro _; exact ⟨h2, lt_of_not_ge h1⟩
      · intro _; rfl
    · constructor
      · intro h; simp at h
      · rintro ⟨hA, _⟩; exact absurd hA h2
  · rw [hscoreraw, hlevel]
    split_ifs with h1 h2
    · constructor
      · intro h; simp at h
      · intro h; linarith
    · constructor
      · intro h; simp at h
      · intro h; exact absurd h2 (not_le.mpr h)
    · constructor
      · intro _; exact lt_of_not_ge h2
      · intro _; rfl
  · intro hA hB hC hD hE hF
    have hzero : coercionRawScore f = 0 := by
      unfold coercionRawScore
      rw [if_neg (by linarith), if_neg (by linarith), if_neg (by linarith),
        if_neg (by linarith), if_neg (by linarith), if_neg (by linarith)]
      norm_num
    constructor
    · rw [hscoreraw, hzero]
    · rw [hlevel, hzero]; norm_num
  · intro hA hB hC hD hE
    have hnf : ¬ (f.speechRate < 80) := by linarith
    have hfull : coercionRawScore f = 95 := by
      unfold coercionRawScore
      rw [if_pos hA, if_neg hnf, if_pos hB, if_pos hC, if_pos hD, if_pos hE]
      norm_num
    constructor
    · rw [hscoreraw, hfull]; norm_num
    · rw [hlevel, hfull]; norm_num

/-! Execution mode router: the chain-operation SDK module. The wallet
transport `sendTransaction` is an external collaborator, modelled as a
function from the transaction request to either a transaction hash or a
thrown error; `generateTestTxHash` draws from `Math.random`, modelled as
an arbitrary supplied string. -/

/-- The factory address constant of the SDK module (the placeholder the
source ships with). -/
def FACTORY_ADDRESS : String := "0x..."

/-- Modelled from the spec: the fallback test factory address referenced
by the SDK module; its definition is not among the sources, and no claim
depends on its value. -/
def TEST_FACTORY_ADDRESS : String := "0xtestfactory"

/-- Calldata built by `encodeFunctionData` for the factory ABI, one
constructor per contract function. -/
inductive ChainCall where
  | createConsentCall (participantB voiceHash faceHash deviceHash geoHash : String)
      (unlockMode windowMinutes : Nat)
  | requestUnlockCall (consentId : Nat)
  | approveUnlockCall (consentId : Nat)
  | withdrawConsentCall (consentId : Nat)
  | pauseConsentCall (consentId : Nat)
  | resumeConsentCall (consentId : Nat)
deriving DecidableEq

/-- The descriptor handed to the wallet transport `sendTransaction`; the
field `toAddr` renders the request field named after the recipient. -/
structure TxRequest where
  toAddr : String
  data : ChainCall
  value : Option String := none
  chainId : Option String := none
deriving DecidableEq

/-- Result of a mint through the router. -/
structure MintResult where
  consentId : Nat
  txHash : String
deriving DecidableEq

/-- Parameter record of `createConsent`. -/
structure CreateConsentParams where
  participantB : String
  voiceHash : String
  faceHash : String
  deviceHash : String
  geoHash : String
  unlockMode : Nat
  windowMinutes : Nat
  chainId : Nat
  feeWei : String
  treasury : String
deriving DecidableEq

/-- First eight decoded bytes of a 0x-prefixed hex field, as computed by
`Buffer.from(h.slice(2), 'hex').slice(0, 8)`. -/
def consentIdBytesOf (hexField : String) : List Nat :=
  (hexPairs (hexField.toList.drop 2)).take 8

/-- The derived consent identifier
`BigInt('0x' + consentIdBytes.toString('hex'))`; `BigInt` throws on an
empty digit string, modelled as `none`. -/
def consentIdFromHexField (hexField : String) : Option Nat :=
  let bs := consentIdBytesOf hexField
  if bs.isEmpty then none else some (beNat bs)

/-- The transaction request built by the live branch of `createConsent`. -/
def createConsentTxRequest (p : CreateConsentParams) : TxRequest :=
  { toAddr := if FACTORY_ADDRESS = "0x..." then TEST_FACTORY_ADDRESS else FACTORY_ADDRESS
    data := ChainCall.createConsentCall p.participantB p.voiceHash p.faceHash
      p.deviceHash p.geoHash p.unlockMode p.windowMinutes
    value := some p.feeWei
    chainId := some (Nat.repr p.chainId) }

/-- The router entry `createConsent`: when the persisted test-mode flag is
set, synthesize a placeholder (pseudo hash plus consent id derived from
the first eight bytes of `voiceHash`) without touching the transport; when
live, dispatch through the transport and derive the consent id from the
returned transaction hash; any throw inside the live branch falls back to
the simulated result with the hash tagged `test_`. A `none` result models
an uncaught throw. -/
def createConsent (testMode : Bool) (send : TxRequest → Except String String)
    (fakeTxHash : String) (p : CreateConsentParams) : Option MintResult :=
  if testMode then
    (consentIdFromHexField p.voiceHash).map
      (fun cid => { consentId := cid, txHash := fakeTxHash })
  else
    match send (createConsentTxRequest p) with
    | Except.ok tx =>
      match consentIdFromHexField tx with
      | some cid => some { consentId := cid, txHash := tx }
      | none =>
        (consentIdFromHexField p.voiceHash).map
          (fun cid => { consentId := cid, txHash := "test_" ++ fakeTxHash })
    | Except.error _ =>
      (consentIdFromHexField p.voiceHash).map
        (fun cid => { consentId := cid, txHash := "test_" ++ fakeTxHash })

/-- The SDK `requestUnlock`: encode calldata and dispatch through the
transport unconditionally (the function never consults the test-mode
flag). -/
def requestUnlock (send : TxRequest → Except String String) (consentId : Nat) :
    Except String String :=
  send { toAddr := FACTORY_ADDRESS, data := ChainCall.requestUnlockCall consentId }

/-- The SDK `approveUnlock`, a live dispatch like `requestUnlock`. -/
def approveUnlock (send : TxRequest → Except String String) (consentId : Nat) :
    Except String String :=
  send { toAddr := FACTORY_ADDRESS, data := ChainCall.approveUnlockCall consentId }

/-- The SDK `withdrawConsent`, a live dispatch like `requestUnlock`. -/
def withdrawConsent (send : TxRequest → Except String String) (consentId : Nat) :
    Except String String :=
  send { toAddr := FACTORY_ADDRESS, data := ChainCall.withdrawConsentCall consentId }

/-- The SDK `pauseConsent`, a live dispatch like `requestUnlock`. -/
def pauseConsent (send : TxRequest → Except String String) (consentId : Nat) :
    Except String String :=
  send { toAddr := FACTORY_ADDRESS, data := ChainCall.pauseConsentCall consentId }

/-- The SDK `resumeConsent`, a live dispatch like `requestUnlock`. -/
def resumeConsent (send : TxRequest → Except String String) (consentId : Nat) :
    Except String String :=
  send { toAddr := FACTORY_ADDRESS, data := ChainCall.resumeConsentCall consentId }

/-- Claim C1, as amended: only the mint operation routes on the persisted
test-mode flag. With the flag set, `createConsent` returns the synthesized
placeholder and is independent of the transport; the five lifecycle
operations always dispatch live through `sendTransaction` and hand back
exactly the transport outcome, whatever the flag. -/
theorem testmode_routing (send send2 : TxRequest → Except String String)
    (fake : String) (p : CreateConsentParams) (consentId : Nat)
    (res : Except String String) :
    createConsent true send fake p = createConsent true send2 fake p
    ∧ createConsent true send fake p
      = (consentIdFromHexField p.voiceHash).map
          (fun cid => { consentId := cid, txHash := fake })
    ∧ requestUnlock (fun _ => res) consentId = res
    ∧ approveUnlock (fun _ => res) consentId = res
    ∧ withdrawConsent (fun _ => res) consentId = res
    ∧ pauseConsent (fun _ => res) consentId = res
    ∧ resumeConsent (fun _ => res) consentId = res :=
  ⟨rfl, rfl, rfl, rfl, rfl, rfl, rfl⟩

/-- Claim C1 counterexample: with the test-mode flag enabled, the five
lifecycle operations still perform a live dispatch — the functions never
read the flag — and a transport failure surfaces instead of a synthesized
placeholder result. -/
theorem lifecycle_live_dispatch_counterexample :
    requestUnlock (fun _ => Except.error ("transport down")) 7
      = Except.error ("transport down")
    ∧ approveUnlock (fun _ => Except.error ("transport down")) 7
      = Except.error ("transport down")
    ∧ withdrawConsent (fun _ => Except.error ("transport down")) 7
      = Except.error ("transport down")
    ∧ pauseConsent (fun _ => Except.error ("transport down")) 7
      = Except.error ("transport down")
    ∧ resumeConsent (fun _ => Except.error ("transport down")) 7
      = Except.error ("transport down") :=
  ⟨rfl, rfl, rfl, rfl, rfl⟩

theorem consentIdFromHexField_some (h : String) (c : Nat)
    (hc : consentIdFromHexField h = some c) : c = beNat (consentIdBytesOf h) := by
  by_cases hb : (consentIdBytesOf h).isEmpty
  · simp [consentIdFromHexField, hb] at hc
  · simp only [consentIdFromHexField, hb, Bool.false_eq_true, if_false,
      Option.some.injEq] at hc
    exact hc.symm

theorem createConsent_true_some (send : TxRequest → Except String String)
    (fake : String) (p : CreateConsentParams) (r : MintResult)
    (h : createConsent true send fake p = some r) :
    r.consentId = beNat (consentIdBytesOf p.voiceHash) ∧ r.txHash = fake := by
  unfold createConsent at h
  rw [if_pos rfl] at h
  cases hp : consentIdFromHexField p.voiceHash with
  | none => rw [hp] at h; simp at h
  | some cid =>
    rw [hp] at h
    simp at h
    have hcid := consentIdFromHexField_some p.voiceHash cid hp
    subst h
    exact ⟨hcid, rfl⟩

/-- Bytes below 256 for every entry of a first-eight-bytes slice. -/
theorem consentIdBytesOf_lt (h : String) : ∀ b ∈ consentIdBytesOf h, b < 256 :=
  fun b hb => hexPairs_lt (h.toList.drop 2) b (List.take_subset 8 _ hb)

/-- Claim C2: in simulated mode the returned consent id is a function of
the first eight bytes of `voiceHash` alone — equal voice hashes give equal
ids across calls with different transports and different pseudo hashes —
and two voice hashes whose first eight decoded bytes differ give different
ids. -/
theorem simulated_mint_deterministic
    (send1 send2 : TxRequest → Except String String) (fake1 fake2 : String)
    (p q : CreateConsentParams) (r1 r2 : MintResult)
    (h1 : createConsent true send1 fake1 p = some r1)
    (h2 : createConsent true send2 fake2 q = some r2) :
    (p.voiceHash = q.voiceHash → r1.consentId = r2.consentId)
    ∧ ((consentIdBytesOf p.voiceHash).length = 8 →
        (consentIdBytesOf q.voiceHash).length = 8 →
        consentIdBytesOf p.voiceHash ≠ consentIdBytesOf q.voiceHash →
        r1.consentId ≠ r2.consentId) := by
  obtain ⟨hc1, _⟩ := createConsent_true_some send1 fake1 p r1 h1
  obtain ⟨hc2, _⟩ := createConsent_true_some send2 fake2 q r2 h2
  constructor
  · intro hv
    rw [hc1, hc2, hv]
  · intro hlp hlq hne heq
    rw [hc1, hc2] at heq
    exact hne (beNat_inj (consentIdBytesOf p.voiceHash) (consentIdBytesOf q.voiceHash)
      (by rw [hlp, hlq]) (consentIdBytesOf_lt p.voiceHash)
      (consentIdBytesOf_lt q.voiceHash) heq)

/-- Concrete simulated-mint parameters for the C2 witness. -/
def mintParamsWith (voiceHash : String) : CreateConsentParams :=
  { participantB := "0x2222222222222222222222222222222222222222"
    voiceHash := voiceHash
    faceHash := "0xbb", deviceHash := "0xcc", geoHash := "0xdd"
    unlockMode := 0, windowMinutes := 0, chainId := 84532
    feeWei := "50000000000000000"
    treasury := "0x3333333333333333333333333333333333333333" }

/-- Witness for claim C2: two simulated mints whose voice hashes differ in
their first eight bytes receive different consent ids. -/
theorem simulated_mint_deterministic_witness :
    ({ consentId := 1, txHash := "0xf" } : MintResult).consentId
      ≠ ({ consentId := 2, txHash := "0xf" } : MintResult).consentId :=
  (simulated_mint_deterministic (fun _ => Except.error ("no wallet"))
    (fun _ => Except.error ("no wallet")) "0xf" "0xf"
    (mintParamsWith ("0x0000000000000001")) (mintParamsWith ("0x0000000000000002"))
    { consentId := 1, txHash := "0xf" } { consentId := 2, txHash := "0xf" }
    (by decide) (by decide)).2 (by decide) (by decide) (by decide)

/-- Claim C3: in live mode, when the transport dispatch throws, the mint
does not propagate the failure — it returns the simulated consent id
derived from `voiceHash`, and the returned transaction hash carries the
distinguishing `test_` tag. -/
theorem live_mint_fallback (send : TxRequest → Except String String)
    (fake msg : String) (p : CreateConsentParams) (cid : Nat)
    (hsend : send (createConsentTxRequest p) = Except.error msg)
    (hcid : consentIdFromHexField p.voiceHash = some cid) :
    createConsent false send fake p = some { consentId := cid, txHash := "test_" ++ fake }
    ∧ ∀ r, createConsent false send fake p = some r →
        ∃ rest, r.txHash = "test_" ++ rest := by
  have hmain : createConsent false send fake p
      = some { consentId := cid, txHash := "test_" ++ fake } := by
    unfold createConsent
    rw [if_neg (by simp), hsend, hcid]
    rfl
  refine ⟨hmain, ?_⟩
  intro r hr
  rw [hmain] at hr
  simp only [Option.some.injEq] at hr
  exact ⟨fake, by rw [← hr]⟩

/-- Witness for claim C3 at a concrete failing transport. -/
theorem live_mint_fallback_witness :
    createConsent false (fun _ => Except.error ("insufficient funds")) "0xabc"
      (mintParamsWith ("0x0000000000000001"))
      = some { consentId := 1, txHash := "test_" ++ "0xabc" } :=
  (live_mint_fallback (fun _ => Except.error ("insufficient funds")) "0xabc"
    "insufficient funds" (mintParamsWith ("0x0000000000000001")) 1 rfl (by decide)).1

/-! The Consent entity of the zustand store, and the lifecycle mutations
the repository performs on it: the UnlockBar request/approve handlers, the
vault withdraw and pause/resume handlers, and the chat history update.
Each local mutation happens only after the corresponding chain call
resolves, which is modelled by a `chainOk` flag. -/

inductive ConsentStatus where
  | locked
  | unlocked
  | pendingUnlock
  | withdrawn
  | paused
deriving DecidableEq

inductive ConsentUnlockMode where
  | oneShot
  | windowed
  | scheduled
deriving DecidableEq

/-- A chat message as stored in the consent local data. -/
structure ChatMessage where
  id : String
  text : String
  sender : String
  timestamp : Nat
  encrypted : Bool
deriving DecidableEq

/-- Device-local cache attached to a consent. -/
structure LocalData where
  audioPath : Option String := none
  selfiePath : Option String := none
  chatHistory : Option (List ChatMessage) := none
deriving DecidableEq

/-- The Consent record of the store module. -/
structure Consent where
  id : String
  consentId : Nat
  participantA : String
  participantB : String
  templateType : String
  purpose : String
  createdAt : Nat
  lockedUntil : Nat
  status : ConsentStatus
  unlockMode : ConsentUnlockMode
  windowMinutes : Nat
  voiceHash : String
  faceHash : String
  deviceHash : String
  geoHash : String
  coercionLevel : CoercionLevel
  unlockRequestFrom : Option String := none
  unlockApprovedBy : Option (List String) := none
  attachments : Option (List String) := none
  localData : Option LocalData := none
deriving DecidableEq

/-- The `wallet.address || undefined` coalescing of the request handler:
a null address or the falsy empty string becomes undefined. -/
def jsOrElseNone (a : Option String) : Option String :=
  match a with
  | some s => if s = "" then none else some s
  | none => none

/-- The UnlockBar eligibility test `consentData.lockedUntil <= Date.now()`
(boundary inclusive). -/
def isEligible (c : Consent) (now : Nat) : Bool :=
  decide (c.lockedUntil ≤ now)

/-- The UnlockBar requester test, comparing the optionally-chained
lowercased `unlockRequestFrom` against the lowercased wallet address with
triple-equals (two absent values compare equal). -/
def isRequester (c : Consent) (addr : Option String) : Bool :=
  c.unlockRequestFrom.map jsToLower == addr.map jsToLower

/-- The UnlockBar test for the wallet having already approved. -/
def hasApproved (c : Consent) (addr : Option String) : Bool :=
  (c.unlockApprovedBy.getD []).any (fun a =>
    match addr with
    | some w => jsToLower a == jsToLower w
    | none => false)

/-- The UnlockBar test for the wallet being one of the two participants. -/
def isOtherParty (c : Consent) (addr : Option String) : Bool :=
  match addr with
  | some w => jsToLower c.participantB == jsToLower w
      || jsToLower c.participantA == jsToLower w
  | none => false

/-- The single action the UnlockBar component exposes for a given consent
and wallet. -/
inductive UnlockAction where
  | requestAction
  | approveAction
  | noAction
deriving DecidableEq

/-- The UnlockBar render logic: unlocked shows nothing; pending-unlock
shows the approve button only to a participant who is neither the
recorded requester nor an existing approver; everything else falls
through to the request button gated by eligibility alone. -/
def unlockBarAction (c : Consent) (addr : Option String) (now : Nat) : UnlockAction :=
  if c.status = ConsentStatus.unlocked then UnlockAction.noAction
  else if c.status = ConsentStatus.pendingUnlock then
    if hasApproved c addr then UnlockAction.noAction
    else if isRequester c addr then UnlockAction.noAction
    else if isOtherParty c addr then UnlockAction.approveAction
    else if isEligible c now then UnlockAction.requestAction else UnlockAction.noAction
  else if isEligible c now then UnlockAction.requestAction else UnlockAction.noAction

/-- The UnlockBar `handleRequestUnlock`: re-checks eligibility, then, once
the chain call succeeds, merges status pending-unlock and the requester
address into the record (leaving every other field as it was). -/
def handleRequestUnlock (c : Consent) (addr : Option String) (now : Nat)
    (chainOk : Bool) : Consent :=
  if isEligible c now = false then c
  else if chainOk then
    { c with status := ConsentStatus.pendingUnlock, unlockRequestFrom := jsOrElseNone addr }
  else c

/-- The UnlockBar `handleApproveUnlock`: once the chain call succeeds, set
status unlocked and append the wallet address (empty when absent) to the
approver list. -/
def handleApproveUnlock (c : Consent) (addr : Option String) (chainOk : Bool) : Consent :=
  if chainOk then
    { c with status := ConsentStatus.unlocked,
             unlockApprovedBy := some (c.unlockApprovedBy.getD [] ++ [addr.getD ""]) }
  else c

/-- One interaction step of the UnlockBar: perform whichever handler the
rendered action exposes. -/
def unlockBarStep (c : Consent) (addr : Option String) (now : Nat) (chainOk : Bool) : Consent :=
  match unlockBarAction c addr now with
  | UnlockAction.requestAction => handleRequestUnlock c addr now chainOk
  | UnlockAction.approveAction => handleApproveUnlock c addr chainOk
  | UnlockAction.noAction => c

/-- The vault `handleWithdraw` local update after the chain call. -/
def handleWithdraw (c : Consent) (chainOk : Bool) : Consent :=
  if chainOk then { c with status := ConsentStatus.withdrawn } else c

/-- The vault `handlePause` local update after the chain call: resume a
paused consent back to locked, pause any other. -/
def handlePauseResume (c : Consent) (chainOk : Bool) : Consent :=
  if c.status = ConsentStatus.paused then
    if chainOk then
      { c with status := if c.status = ConsentStatus.paused then ConsentStatus.locked
          else ConsentStatus.paused }
    else c
  else if chainOk then { c with status := ConsentStatus.paused } else c

/-- The chat `sendMessage` local update: replace the chat history inside
the spread of the previous local data. -/
def chatSendMessage (c : Consent) (msgs : List ChatMessage) : Consent :=
  { c with localData := some { c.localData.getD {} with chatHistory := some msgs } }

/-- Claim C5: on a pending-unlock consent, the recorded requester can
never drive the status to unlocked through the UnlockBar, and the status
reaches unlocked only when a participant other than the requester
approves. -/
theorem unlockBar_self_approval (c : Consent) (addr : Option String) (now : Nat) (ok : Bool)
    (hp : c.status = ConsentStatus.pendingUnlock) :
    (isRequester c addr = true →
      (unlockBarStep c addr now ok).status ≠ ConsentStatus.unlocked)
    ∧ ((unlockBarStep c addr now ok).status = ConsentStatus.unlocked →
        isOtherParty c addr = true ∧ isRequester c addr = false) := by
  unfold unlockBarStep unlockBarAction handleRequestUnlock handleApproveUnlock
  rw [hp]
  by_cases hA : hasApproved c addr = true <;> by_cases hR : isRequester c addr = true <;>
    by_cases hO : isOtherParty c addr = true <;> by_cases hE : isEligible c now = true <;>
    by_cases hk : ok = true <;>
    simp_all

/-- A pending-unlock consent whose requester is participant A, for the C5
witness. -/
def pendingSample : Consent :=
  { id := "c-2", consentId := 2
    participantA := "0xaaa", participantB := "0xbbb"
    templateType := "nda", purpose := "NDA"
    createdAt := 1000, lockedUntil := 5000
    status := ConsentStatus.pendingUnlock
    unlockMode := ConsentUnlockMode.oneShot, windowMinutes := 0
    voiceHash := "0x01", faceHash := "0x02", deviceHash := "0x03", geoHash := "0x04"
    coercionLevel := CoercionLevel.green
    unlockRequestFrom := some "0xAAA" }

/-- Witness for claim C5: the requester address (case-insensitively equal
to the recorded `unlockRequestFrom`) cannot unlock the pending consent. -/
theorem unlockBar_self_approval_witness :
    (unlockBarStep pendingSample (some "0xaaa") 5000 true).status
      ≠ ConsentStatus.unlocked :=
  (unlockBar_self_approval pendingSample (some "0xaaa") 5000 true rfl).1 (by decide)

/-- Claim C4, as amended: a request on a locked consent before the lock
expires changes nothing at all; at or after `lockedUntil` (boundary
inclusive) a successful request sets status pending-unlock and records
the requester address, while `unlockApprovedBy` is left unchanged rather
than reset to empty (the handler merges only status and requester into
the stored record). -/
theorem requestUnlock_gate (c : Consent) (addr : Option String) (now : Nat) (ok : Bool)
    (hl : c.status = ConsentStatus.locked) :
    (now < c.lockedUntil → unlockBarStep c addr now ok = c)
    ∧ (c.lockedUntil ≤ now → ok = true →
        (unlockBarStep c addr now ok).status = ConsentStatus.pendingUnlock
        ∧ (unlockBarStep c addr now ok).unlockRequestFrom = jsOrElseNone addr
        ∧ (unlockBarStep c addr now ok).unlockApprovedBy = c.unlockApprovedBy
        ∧ (unlockBarStep c addr now ok).lockedUntil = c.lockedUntil
        ∧ (unlockBarStep c addr now ok).createdAt = c.createdAt) := by
  unfold unlockBarStep unlockBarAction handleRequestUnlock
  rw [hl]
  constructor
  · intro hnow
    have he : isEligible c now = false := by
      unfold isEligible
      simp [Nat.not_le.mpr hnow]
    simp [he]
  · intro hnow hok
    have he : isEligible c now = true := by
      unfold isEligible
      simp [hnow]
    simp [he, hok]

/-- A locked consent carrying a stale approver entry (reachable through
request, approve, pause, resume), used to refute the reset clause of the
original C4. -/
def lockedStaleSample : Consent :=
  { id := "c-3", consentId := 3
    participantA := "0xaaa", participantB := "0xbbb"
    templateType := "nda", purpose := "NDA"
    createdAt := 1000, lockedUntil := 5000
    status := ConsentStatus.locked
    unlockMode := ConsentUnlockMode.oneShot, windowMinutes := 0
    voiceHash := "0x01", faceHash := "0x02", deviceHash := "0x03", geoHash := "0x04"
    coercionLevel := CoercionLevel.green
    unlockApprovedBy := some ["0xbbb"] }

/-- Claim C4 counterexample: a request at exactly `lockedUntil` succeeds
(status becomes pending-unlock) yet `unlockApprovedBy` is not reset to
empty — the stale approver entry survives. -/
theorem requestUnlock_no_reset_counterexample :
    (unlockBarStep lockedStaleSample (some "0xaaa") 5000 true).status
      = ConsentStatus.pendingUnlock
    ∧ (unlockBarStep lockedStaleSample (some "0xaaa") 5000 true).unlockApprovedBy
      ≠ some [] := by
  decide

/-- Witness for claim C4 at a concrete locked consent and boundary time. -/
theorem requestUnlock_gate_witness :
    (unlockBarStep lockedStaleSample (some "0xccc") 5000 true).status
      = ConsentStatus.pendingUnlock :=
  ((requestUnlock_gate lockedStaleSample (some "0xccc") 5000 true rfl).2
    (by decide) rfl).1

/-! The consent wizard `handleMint` tail: the record construction after a
successful mint. The wizard reads the clock twice — once for
`lockedUntil`, and again, afterwards, for `createdAt` — so the two reads
are passed explicitly, with monotonicity as the only assumption. -/

/-- The fixed 24-hour lock duration, in milliseconds. -/
def LOCK_DURATION_MS : Nat := 24 * 60 * 60 * 1000

/-- The non-temporal inputs of the wizard record construction. -/
structure MintRecordInputs where
  uuid : String
  mintConsentId : Nat
  walletAddress : String
  participantB : String
  templateType : String
  templateName : String
  unlockMode : ConsentUnlockMode
  windowMinutes : Nat
  voiceHash : String
  faceHash : String
  deviceHash : String
  geoHash : String
  coercion : CoercionLevel
  attachmentCids : List String
  audioPath : String
  selfiePath : String
deriving DecidableEq

/-- The consent object built and stored by `handleMint` after the router
returns: `tLock` is the clock read used for `lockedUntil`, `tCreate` the
later read stored as `createdAt`. -/
def mintConsentRecord (inp : MintRecordInputs) (tLock tCreate : Nat) : Consent :=
  { id := inp.uuid
    consentId := inp.mintConsentId
    participantA := inp.walletAddress
    participantB := inp.participantB
    templateType := inp.templateType
    purpose := inp.templateName
    createdAt := tCreate
    lockedUntil := tLock + LOCK_DURATION_MS
    status := ConsentStatus.locked
    unlockMode := inp.unlockMode
    windowMinutes := inp.windowMinutes
    voiceHash := inp.voiceHash
    faceHash := inp.faceHash
    deviceHash := inp.deviceHash
    geoHash := inp.geoHash
    coercionLevel := inp.coercion
    attachments := if inp.attachmentCids.isEmpty then none else some inp.attachmentCids
    localData := some { audioPath := some inp.audioPath, selfiePath := some inp.selfiePath } }

theorem handleRequestUnlock_lockedUntil (c : Consent) (addr : Option String)
    (now : Nat) (ok : Bool) : (handleRequestUnlock c addr now ok).lockedUntil = c.lockedUntil := by
  unfold handleRequestUnlock
  split_ifs <;> rfl

theorem handleApproveUnlock_lockedUntil (c : Consent) (addr : Option String)
    (ok : Bool) : (handleApproveUnlock c addr ok).lockedUntil = c.lockedUntil := by
  unfold handleApproveUnlock
  split_ifs <;> rfl

theorem unlockBarStep_lockedUntil (c : Consent) (addr : Option String)
    (now : Nat) (ok : Bool) : (unlockBarStep c addr now ok).lockedUntil = c.lockedUntil := by
  unfold unlockBarStep
  rcases hA : unlockBarAction c addr now
  · exact handleRequestUnlock_lockedUntil c addr now ok
  · exact handleApproveUnlock_lockedUntil c addr ok
  · rfl

/-- Claim C6, as amended: `lockedUntil` is the 24-hour duration added to
the clock value read just before `createdAt` is read, so it never exceeds
`createdAt` plus the duration and equals it exactly when the two reads
return the same instant; the record starts locked; and none of the later
repository operations (UnlockBar request/approve, withdraw, pause/resume,
chat update) ever changes `lockedUntil`. -/
theorem lockedUntil_invariant (inp : MintRecordInputs) (tLock tCreate : Nat)
    (hmono : tLock ≤ tCreate) :
    (mintConsentRecord inp tLock tCreate).lockedUntil = tLock + LOCK_DURATION_MS
    ∧ (mintConsentRecord inp tLock tCreate).lockedUntil
        ≤ (mintConsentRecord inp tLock tCreate).createdAt + LOCK_DURATION_MS
    ∧ (tLock = tCreate →
        (mintConsentRecord inp tLock tCreate).lockedUntil
          = (mintConsentRecord inp tLock tCreate).createdAt + LOCK_DURATION_MS)
    ∧ (mintConsentRecord inp tLock tCreate).status = ConsentStatus.locked
    ∧ (∀ (c : Consent) (addr : Option String) (now : Nat) (ok : Bool),
        (unlockBarStep c addr now ok).lockedUntil = c.lockedUntil)
    ∧ (∀ (c : Consent) (ok : Bool), (handleWithdraw c ok).lockedUntil = c.lockedUntil)
    ∧ (∀ (c : Consent) (ok : Bool), (handlePauseResume c ok).lockedUntil = c.lockedUntil)
    ∧ (∀ (c : Consent) (msgs : List ChatMessage),
        (chatSendMessage c msgs).lockedUntil = c.lockedUntil) := by
  refine ⟨rfl, ?_, ?_, rfl, unlockBarStep_lockedUntil, ?_, ?_, ?_⟩
  · show tLock + LOCK_DURATION_MS ≤ tCreate + LOCK_DURATION_MS
    omega
  · intro heq
    show tLock + LOCK_DURATION_MS = tCreate + LOCK_DURATION_MS
    omega
  · intro c ok
    unfold handleWithdraw
    split_ifs <;> rfl
  · intro c ok
    unfold handlePauseResume
    split_ifs <;> rfl
  · intro c msgs
    rfl

/-- Concrete mint-record inputs for the C6 counterexample and witness. -/
def sampleMintInputs : MintRecordInputs :=
  { uuid := "uuid-1", mintConsentId := 9
    walletAddress := "0xaaa", participantB := "0xbbb"
    templateType := "nda", templateName := "NDA"
    unlockMode := ConsentUnlockMode.oneShot, windowMinutes := 0
    voiceHash := "aa", faceHash := "bb", deviceHash := "cc", geoHash := "dd"
    coercion := CoercionLevel.green, attachmentCids := []
    audioPath := "a.m4a", selfiePath := "s.jpg" }

/-- Claim C6 counterexample: when the clock ticks between the wizard's two
`Date.now()` reads (here from 0 to 1), the stored `lockedUntil` is not
`createdAt` plus the 24-hour duration. -/
theorem lockedUntil_clock_skew_counterexample :
    (mintConsentRecord sampleMintInputs 0 1).lockedUntil
      ≠ (mintConsentRecord sampleMintInputs 0 1).createdAt + LOCK_DURATION_MS := by
  decide

/-- Witness for claim C6 when both clock reads coincide. -/
theorem lockedUntil_invariant_witness :
    (mintConsentRecord sampleMintInputs 5 5).lockedUntil
      = (mintConsentRecord sampleMintInputs 5 5).createdAt + LOCK_DURATION_MS :=
  (lockedUntil_invariant sampleMintInputs 5 5 (by decide)).2.2.1 rfl

/-! The wizard geolocation step: `getLocationHash` is an external
capture collaborator; on a throw, the wizard substitutes a hash computed
from the decimal rendering of the current `Date.now()` value. The sha3
primitive (returning a lowercase hex digest string) is passed as a
function parameter. -/

/-- The geo value carried through the wizard. -/
structure GeoHashData where
  hash : String
deriving DecidableEq

/-- The `Number` coercion JavaScript applies to single characters when a
string is fed to the `Uint8Array` constructor: decimal digits map to
their value, every other digest character maps to 0 (via NaN). -/
def jsCharToUint8 (c : Char) : Nat :=
  if 48 ≤ c.toNat ∧ c.toNat ≤ 57 then c.toNat - 48 else 0

/-- The fallback geo hash of `handleMint`: hash the ASCII bytes of
`Date.now().toString()`, feed the hex digest string through the
`Uint8Array` coercion, and join the two-digit hex renderings. -/
def fallbackGeoHash (sha3hex : List Nat → String) (now : Nat) : String :=
  String.join (((sha3hex (asciiBytes (Nat.repr now))).toList).map
    (fun c => byteToHex2 (jsCharToUint8 c)))

/-- The geolocation step of `handleMint`: keep a captured hash, substitute
the time-derived fallback on failure. -/
def geoHashStep (sha3hex : List Nat → String) (locationResult : Option GeoHashData)
    (now : Nat) : GeoHashData :=
  match locationResult with
  | some g => g
  | none => { hash := fallbackGeoHash sha3hex now }

/-- Claim C7: when geolocation capture fails, the substituted geo hash is
`fallbackGeoHash` of the current clock value — a value determined by the
current time alone, so any two failing captures at the same instant (with
the same hash primitive) commit to the same fallback hash, whatever else
differs between the runs. -/
theorem geo_fallback_deterministic (sha3hex : List Nat → String)
    (r1 r2 : Option GeoHashData) (now : Nat) (h1 : r1 = none) :
    (geoHashStep sha3hex r1 now).hash = fallbackGeoHash sha3hex now
    ∧ (r2 = none → geoHashStep sha3hex r1 now = geoHashStep sha3hex r2 now) := by
  subst h1
  refine ⟨rfl, ?_⟩
  intro h2
  subst h2
  rfl

/-- Witness for claim C7 at a concrete hash primitive and instant. -/
theorem geo_fallback_deterministic_witness :
    (geoHashStep (fun _ => "a1") none 7).hash = fallbackGeoHash (fun _ => "a1") 7 :=
  (geo_fallback_deterministic (fun _ => "a1") none none 7 rfl).1

/-! Wallet creation and account derivation. The BIP-39, BIP-32, secp256k1
and keccak primitives come from the ethereum-cryptography library and are
modelled as a parameter record; `K` is the opaque type of HD root keys.
Fallible primitives return an option (a throw aborts the wallet call). -/

/-- The external cryptography primitives used by the wallet module. -/
structure WalletPrims (K : Type) where
  mnemonicToEntropy : String → Option (List Nat)
  fromMasterSeed : List Nat → Option K
  deriveChildPrivateKey : K → Nat → Option (List Nat)
  getPublicKey : List Nat → Option (List Nat)
  keccak256 : List Nat → List Nat

/-- The `hash.slice(-20)` tail of a keccak digest. -/
def lastTwentyBytes (bs : List Nat) : List Nat :=
  bs.drop (bs.length - 20)

/-- The wallet module `_getEthAddress`: keccak the public key and render
the last twenty bytes as a 0x-prefixed hex string. -/
def getEthAddress (keccak : List Nat → List Nat) (publicKey : List Nat) : String :=
  "0x" ++ bytesToHexStr (lastTwentyBytes (keccak publicKey))

/-- The wallet module `_privateKeyToHex`. -/
def privateKeyToHex (priv : List Nat) : String :=
  "0x" ++ bytesToHexStr priv

/-- Result of `createWallet`. -/
structure CreatedWallet where
  address : String
  mnemonic : String
  privateKey : String
deriving DecidableEq

/-- Result of `deriveAccountFromMnemonic`. -/
structure DerivedAccount where
  address : String
  privateKey : String
deriving DecidableEq

/-- The shared derivation pipeline `_getHdRootKey` then
`_generatePrivateKey` then `_getPublicKey` then `_getEthAddress`. -/
def deriveAddressAndKey {K : Type} (P : WalletPrims K) (entropy : List Nat)
    (accountIndex : Nat) : Option DerivedAccount :=
  (P.fromMasterSeed entropy).bind (fun hdRootKey =>
    (P.deriveChildPrivateKey hdRootKey accountIndex).bind (fun priv =>
      (P.getPublicKey priv).map (fun pub =>
        { address := getEthAddress P.keccak256 pub, privateKey := privateKeyToHex priv })))

/-- The wallet module `createWallet`, applied to the mnemonic the BIP-39
generator produced: entropy from the mnemonic, then the account-0
derivation pipeline. -/
def createWallet {K : Type} (P : WalletPrims K) (generatedMnemonic : String) :
    Option CreatedWallet :=
  (P.mnemonicToEntropy generatedMnemonic).bind (fun entropy =>
    (deriveAddressAndKey P entropy 0).map (fun acc =>
      { address := acc.address, mnemonic := generatedMnemonic,
        privateKey := acc.privateKey }))

/-- The wallet module `deriveAccountFromMnemonic`: trim and lowercase the
supplied phrase, take its entropy, and run the same pipeline at the given
account index. -/
def deriveAccountFromMnemonic {K : Type} (P : WalletPrims K) (mnemonic : String)
    (accountIndex : Nat) : Option DerivedAccount :=
  (P.mnemonicToEntropy (jsToLower (jsTrim mnemonic))).bind (fun entropy =>
    deriveAddressAndKey P entropy accountIndex)

/-- Claim C9: deriving account 0 from the mnemonic returned by a
successful `createWallet` yields the very address and private key the
creation call returned. The generated mnemonic is lowercase wordlist
words joined by single spaces, so trimming and lowercasing fix it, which
is the stated normalization hypothesis. -/
theorem mnemonic_roundtrip {K : Type} (P : WalletPrims K) (m : String) (w : CreatedWallet)
    (hnorm : jsToLower (jsTrim m) = m)
    (hcreate : createWallet P m = some w) :
    deriveAccountFromMnemonic P m 0
      = some { address := w.address, privateKey := w.privateKey } := by
  unfold createWallet at hcreate
  unfold deriveAccountFromMnemonic
  rw [hnorm]
  cases hE : P.mnemonicToEntropy m with
  | none => rw [hE] at hcreate; cases hcreate
  | some entropy =>
    rw [hE] at hcreate
    have hc2 : (deriveAddressAndKey P entropy 0).map (fun acc =>
        ({ address := acc.address, mnemonic := m,
           privateKey := acc.privateKey } : CreatedWallet)) = some w := hcreate
    show deriveAddressAndKey P entropy 0
      = some { address := w.address, privateKey := w.privateKey }
    cases hD : deriveAddressAndKey P entropy 0 with
    | none => rw [hD] at hc2; cases hc2
    | some acc =>
      rw [hD] at hc2
      simp at hc2
      subst hc2
      rfl

/-- Degenerate concrete primitives for the C9 witness. -/
def trivialWalletPrims : WalletPrims Nat :=
  { mnemonicToEntropy := fun _ => some []
    fromMasterSeed := fun _ => some 0
    deriveChildPrivateKey := fun _ _ => some []
    getPublicKey := fun _ => some []
    keccak256 := fun bs => bs }

/-- Witness for claim C9 at a concrete mnemonic and primitive record. -/
theorem mnemonic_roundtrip_witness :
    deriveAccountFromMnemonic trivialWalletPrims "abandon ability able" 0
      = some { address := "0x", privateKey := "0x" } :=
  mnemonic_roundtrip trivialWalletPrims "abandon ability able"
    { address := "0x", mnemonic := "abandon ability able", privateKey := "0x" }
    (by decide) (by decide)

/-- A feature set crossing no threshold, for the C8 witness. -/
def lowFeatures : CoercionFeatures :=
  { speechRate := 120, pauseCount := 3, pauseDuration := 700,
    jitter := 1/10, volumeVariation := 1/5 }

/-- A feature set crossing every simultaneously satisfiable threshold,
for the C8 witness. -/
def highFeatures : CoercionFeatures :=
  { speechRate := 200, pauseCount := 12, pauseDuration := 2500,
    jitter := 1/2, volumeVariation := 1/2 }

/-- Witness for claim C8 at concrete low-end and high-end feature sets. -/
theorem analyzeCoercion_spec_witness :
    ((analyzeCoercion lowFeatures).score = 0
      ∧ (analyzeCoercion lowFeatures).level = CoercionLevel.green)
    ∧ (60 ≤ (analyzeCoercion highFeatures).score
      ∧ (analyzeCoercion highFeatures).level = CoercionLevel.red) :=
  ⟨(analyzeCoercion_spec lowFeatures).2.2.2.2.2.2.1
      (by norm_num [lowFeatures]) (by norm_num [lowFeatures]) (by norm_num [lowFeatures])
      (by norm_num [lowFeatures]) (by norm_num [lowFeatures]) (by norm_num [lowFeatures]),
    (analyzeCoercion_spec highFeatures).2.2.2.2.2.2.2
      (by norm_num [highFeatures]) (by norm_num [highFeatures]) (by norm_num [highFeatures])
      (by norm_num [highFeatures]) (by norm_num [highFeatures])⟩

end EchoID
